import Mathlib

/-!
Verification model of the ClipboardMaster core
(`src/ClipboardMaster.Core/src/lib.rs` and `src/ClipboardMaster.Core/src/ffi.rs`).

The Rust code is shallowly embedded as executable Lean definitions:

* SQLite table contents become plain lists held in a `Database` structure,
  one list per table (`clipboard_items`, `item_tags`, `item_metadata`).
* `chrono` timestamps become `Int` unix seconds (the code always stores
  `DateTime::timestamp()`, i.e. whole seconds).
* `Uuid` identifiers become `Nat`.
* Fallible operations return `Option`; `Utc::now()` becomes an explicit
  `now : Int` argument and the freshly generated `Uuid::new_v4()` becomes an
  explicit `fresh_id : Nat` argument, so every function is deterministic.
* External library calls that are not part of this repository (the PNG
  encoder and the thumbnail resampler of the `image` crate, the
  `serde_json` deserializer) are modelled by executable stand-ins, each
  marked in its doc comment.
-/

inductive ImageFormat where
  | png
  | jpeg
  | bmp
  | gif
  | unknown
deriving DecidableEq

structure ImageData where
  data : List Nat
  width : Nat
  height : Nat
  format : ImageFormat
  thumbnail : List Nat
deriving DecidableEq

structure FileItem where
  path : String
  size : Nat
  modified : Int
deriving DecidableEq

inductive ClipboardContent where
  | text (s : String)
  | html (s : String)
  | image (d : ImageData)
  | fileList (files : List FileItem)
  | richText (s : String)
  | custom (name : String) (data : List Nat)
deriving DecidableEq

structure ClipboardItem where
  id : Nat
  content : ClipboardContent
  timestamp : Int
  tags : List String
  favorite : Bool
  pinned : Bool
  source_app : Option String
  source_window : Option String
  preview_text : String
  preview_image : Option (List Nat)
  metadata : List (String × String)
deriving DecidableEq

structure HotkeyConfig where
  show_window : String
  pin_item : String
  search : String
  next_item : String
  prev_item : String
deriving DecidableEq

/-- UI preferences. The source's `opacity: f32` (0.95) is modelled as an
integer number of hundredths; no claim computes with it. -/
structure UiConfig where
  theme : String
  opacity_percent : Nat
  animation_speed : Nat
  show_preview : Bool
  show_thumbnails : Bool
  thumbnail_size : Nat
  font_size : Nat
deriving DecidableEq

structure AppSettings where
  max_items : Nat
  keep_days : Nat
  max_image_size_mb : Nat
  compress_images : Bool
  save_text : Bool
  save_images : Bool
  save_files : Bool
  save_html : Bool
  auto_cleanup : Bool
  startup_delay_ms : Nat
  database_path : String
  cache_path : String
  hotkeys : HotkeyConfig
  ui : UiConfig
deriving DecidableEq

inductive ClipboardEvent where
  | itemAdded (item : ClipboardItem)
  | itemUpdated (item : ClipboardItem)
  | itemRemoved (id : Nat)
  | settingsChanged (s : AppSettings)
  | hotkeyPressed (name : String)
deriving DecidableEq

structure Statistics where
  total_items : Nat
  text_items : Nat
  image_items : Nat
  file_items : Nat
  html_items : Nat
  favorite_items : Nat
  pinned_items : Nat
  total_size_bytes : Nat
  database_size_bytes : Nat
  cache_size_bytes : Nat
deriving DecidableEq

/-- The `content_type` discriminator computed by `Database::save_item`
(`lib.rs` lines 489-496). -/
def contentTypeOf : ClipboardContent → String
  | ClipboardContent.text _ => "text"
  | ClipboardContent.image _ => "image"
  | ClipboardContent.fileList _ => "file"
  | ClipboardContent.html _ => "html"
  | ClipboardContent.richText _ => "richtext"
  | ClipboardContent.custom name _ => name

/-- One row of the `clipboard_items` table, holding the columns written by
`Database::save_item`. The `content_json` column is kept structured (serde
round-trips losslessly); the columns the INSERT never supplies
(`created_at`, `updated_at`, `access_count`) are omitted. -/
structure StoredItem where
  id : Nat
  content_type : String
  content : ClipboardContent
  timestamp : Int
  tags : List String
  favorite : Bool
  pinned : Bool
  source_app : Option String
  source_window : Option String
  preview_text : String
  preview_image : Option (List Nat)
  metadata : List (String × String)
deriving DecidableEq

/-- The SQLite database contents: `clipboard_items`, `item_tags` and
`item_metadata` tables (the unused `search_history` table is omitted). -/
structure Database where
  items : List StoredItem
  tagRows : List (Nat × String)
  metaRows : List (Nat × String × String)
deriving DecidableEq

/-- The row `Database::save_item` inserts for a `ClipboardItem`. -/
def rowOf (it : ClipboardItem) : StoredItem :=
  { id := it.id
    content_type := contentTypeOf it.content
    content := it.content
    timestamp := it.timestamp
    tags := it.tags
    favorite := it.favorite
    pinned := it.pinned
    source_app := it.source_app
    source_window := it.source_window
    preview_text := it.preview_text
    preview_image := it.preview_image
    metadata := it.metadata }

/-- The near-duplicate probe of `Database::save_item` (`lib.rs` lines
475-482): `SELECT 1 FROM clipboard_items WHERE preview_text = ? AND
timestamp > ?` with the second parameter `(now - 5 seconds).timestamp()`. -/
def isNearDuplicate (now : Int) (it : ClipboardItem) (r : StoredItem) : Bool :=
  decide (r.preview_text = it.preview_text ∧ now - 5 < r.timestamp)

/-- `Database::save_item` (`lib.rs` lines 469-548): if a near-duplicate row
exists the save is a no-op returning success; otherwise `INSERT OR REPLACE`
the main row (the primary key is `id`, so an existing row with the same id
is replaced), then delete and re-insert that id's `item_tags` and
`item_metadata` rows inside the same transaction. -/
def Database.save_item (now : Int) (db : Database) (it : ClipboardItem) : Database :=
  if db.items.any (isNearDuplicate now it) then db
  else
    { items := db.items.filter (fun r => decide (r.id ≠ it.id)) ++ [rowOf it]
      tagRows := db.tagRows.filter (fun p => decide (p.1 ≠ it.id)) ++
        it.tags.map (fun t => (it.id, t))
      metaRows := db.metaRows.filter (fun m => decide (m.1 ≠ it.id)) ++
        it.metadata.map (fun kv => (it.id, kv.1, kv.2)) }

/-- The row-deletion predicate of `Database::cleanup_old_items`:
`favorite = 0 AND pinned = 0 AND timestamp < cutoff`. -/
def cleanupDeletes (cutoff : Int) (r : StoredItem) : Bool :=
  !r.favorite && !r.pinned && decide (r.timestamp < cutoff)

/-- `Database::cleanup_old_items` (`lib.rs` lines 627-649): delete every
unprotected row older than `now - keep_days` days, then delete `item_tags`
and `item_metadata` rows whose `item_id` no longer appears in
`clipboard_items`; return the number of item rows deleted. -/
def Database.cleanup_old_items (now : Int) (keep_days : Nat) (db : Database) :
    Database × Nat :=
  let cutoff : Int := now - 86400 * (keep_days : Int)
  let kept := db.items.filter (fun r => !cleanupDeletes cutoff r)
  let keptIds := kept.map (fun r => r.id)
  ({ items := kept
     tagRows := db.tagRows.filter (fun p => decide (p.1 ∈ keptIds))
     metaRows := db.metaRows.filter (fun m => decide (m.1 ∈ keptIds)) },
   db.items.countP (cleanupDeletes cutoff))

/-- Modelled from the spec: size of the serialized `content_json` column
(the `serde_json` serializer is external library code, not part of this
repository). Only used for the `total_size_bytes` estimate, which no claim
inspects numerically. -/
def contentJsonLen : ClipboardContent → Nat
  | ClipboardContent.text s => s.length
  | ClipboardContent.html s => s.length
  | ClipboardContent.richText s => s.length
  | ClipboardContent.image d => d.data.length
  | ClipboardContent.fileList files => files.length
  | ClipboardContent.custom _ data => data.length

/-- `Database::get_statistics` (`lib.rs` lines 651-732): per-type COUNT
queries over `clipboard_items`, favorite/pinned counts, size estimates.
The `pragma_page_count * pragma_page_size` result is the engine's file
size and is passed in as `db_size`. -/
def Database.get_statistics (db_size : Nat) (db : Database) : Statistics :=
  { total_items := db.items.length
    text_items := db.items.countP (fun r => decide (r.content_type = "text"))
    image_items := db.items.countP (fun r => decide (r.content_type = "image"))
    file_items := db.items.countP (fun r => decide (r.content_type = "file"))
    html_items := db.items.countP (fun r => decide (r.content_type = "html"))
    favorite_items := db.items.countP (fun r => r.favorite)
    pinned_items := db.items.countP (fun r => r.pinned)
    total_size_bytes :=
      (db.items.map (fun r => contentJsonLen r.content)).sum +
        (db.items.map (fun r => (r.preview_image.getD []).length)).sum
    database_size_bytes := db_size
    cache_size_bytes := 0 }

/-- UTF-8 byte length of a character list (Rust's `String::len`). -/
def utf8Len : List Char → Nat
  | [] => 0
  | c :: cs => c.utf8Size + utf8Len cs

/-- Rust byte slicing `&text[..n]` on a string whose UTF-8 length is at
least `n`: returns the characters making up the first `n` bytes, or `none`
when byte index `n` is not a character boundary (Rust panics there). -/
def takeBytes (n : Nat) : List Char → Option (List Char)
  | [] => if n = 0 then some [] else none
  | c :: cs =>
    if n = 0 then some []
    else if c.utf8Size ≤ n then (takeBytes (n - c.utf8Size) cs).map (fun p => c :: p)
    else none

/-- `ClipboardMonitor::capture_text` (`lib.rs` lines 903-925): store the
decoded text as the content; the preview is the full text when its byte
length is at most 100, otherwise the first 100 bytes followed by `"..."`
(`format!` over `&text[..100]`, which panics off a char boundary —
modelled as `none`). -/
def ClipboardMonitor.capture_text (item : ClipboardItem) (text : String) :
    Option ClipboardItem :=
  if 100 < utf8Len text.data then
    (takeBytes 100 text.data).map (fun p =>
      { item with
        content := ClipboardContent.text text
        preview_text := String.mk (p ++ "...".data) })
  else
    some { item with content := ClipboardContent.text text, preview_text := text }

/-- A raw `CF_BITMAP` payload: dimensions plus the raw byte memory the code
reads `width * height * 4` bytes from. -/
structure Bitmap where
  width : Nat
  height : Nat
  bits : Nat → Nat

/-- Modelled from the spec: stands in for the external PNG encoder of the
`image` crate (library code, not part of this repository); an injective
executable encoding of dimensions plus pixel bytes. -/
def pngEncode (w h : Nat) (pixels : List Nat) : List Nat :=
  w :: h :: pixels

/-- Modelled from the spec: stands in for `image::imageops::thumbnail(buf,
128, 128)` of the external `image` crate, which resamples the source into
an exactly 128 by 128 pixel image; nearest-neighbour sampling is used as an
executable stand-in for its box filter. -/
def thumbnailPixels (w h : Nat) (buf : List Nat) : List Nat :=
  (List.range (128 * 128 * 4)).map (fun i =>
    let p := i / 4
    let chan := i % 4
    let ty := p / 128
    let tx := p % 128
    buf.getD (((ty * h / 128) * w + tx * w / 128) * 4 + chan) 0)

/-- `ClipboardMonitor::capture_image` (`lib.rs` lines 927-987): read the
raw RGBA buffer, re-encode it as PNG, render a 128 by 128 thumbnail iff the
`compress_images` setting is on, set `preview_text` to `"[Image WxH]"` and
`preview_image` to the thumbnail bytes (or `None` when compression is
off). -/
def ClipboardMonitor.capture_image (item : ClipboardItem) (settings : AppSettings)
    (b : Bitmap) : ClipboardItem :=
  let w := b.width
  let h := b.height
  let buf := (List.range (w * h * 4)).map b.bits
  let png := pngEncode w h buf
  let thumb : Option (List Nat) :=
    if settings.compress_images then
      some (pngEncode 128 128 (thumbnailPixels w h buf))
    else none
  { item with
    content := ClipboardContent.image
      { data := png, width := w, height := h, format := ImageFormat.png,
        thumbnail := thumb.getD [] }
    preview_text := "[Image " ++ toString w ++ "x" ++ toString h ++ "]"
    preview_image := thumb }

/-- Modelled from the spec: `ClipboardMonitor::capture_files` is invoked by
the capture dispatch (`lib.rs` line 893) but its definition is not among
the provided sources. Per the spec, file-list capture enumerates each
dropped path with size and modification time; the preview is a synthetic
description. -/
def ClipboardMonitor.capture_files (item : ClipboardItem) (files : List FileItem) :
    ClipboardItem :=
  { item with
    content := ClipboardContent.fileList files
    preview_text := "[Files " ++ toString files.length ++ "]" }

/-- Modelled from the spec: `ClipboardMonitor::capture_html` is invoked by
the capture dispatch (`lib.rs` line 895) but its definition is not among
the provided sources. Per the spec, markup capture decodes the registered
markup clipboard format to its raw text. -/
def ClipboardMonitor.capture_html (item : ClipboardItem) (markup : String) :
    ClipboardItem :=
  { item with
    content := ClipboardContent.html markup
    preview_text := "[HTML]" }

/-- One OS clipboard snapshot: which formats are currently offered (probed
via `IsClipboardFormatAvailable`) together with their payloads, plus the
foreground window title and class used for `source_app`/`source_window`. -/
structure Snapshot where
  text : Option String
  image : Option Bitmap
  files : Option (List FileItem)
  html : Option String
  foreground_app : Option String
  foreground_window : Option String

/-- The blank item `ClipboardMonitor::capture_clipboard_content` builds
before probing any format (`lib.rs` lines 873-885). -/
def ClipboardMonitor.initial_item (fresh_id : Nat) (now : Int) (s : Snapshot) :
    ClipboardItem :=
  { id := fresh_id
    content := ClipboardContent.text ""
    timestamp := now
    tags := []
    favorite := false
    pinned := false
    source_app := s.foreground_app
    source_window := s.foreground_window
    preview_text := ""
    preview_image := none
    metadata := [] }

/-- `ClipboardMonitor::capture_clipboard_content` (`lib.rs` lines 861-901):
probe `CF_UNICODETEXT`, then `CF_BITMAP`, then `CF_HDROP`, then the
registered `"HTML Format"`, capturing only the first available format; when
none is available the blank initial item is returned unchanged. -/
def ClipboardMonitor.capture_clipboard_content (settings : AppSettings)
    (fresh_id : Nat) (now : Int) (s : Snapshot) : Option ClipboardItem :=
  let item := ClipboardMonitor.initial_item fresh_id now s
  match s.text with
  | some t => ClipboardMonitor.capture_text item t
  | none =>
    match s.image with
    | some b => some (ClipboardMonitor.capture_image item settings b)
    | none =>
      match s.files with
      | some files => some (ClipboardMonitor.capture_files item files)
      | none =>
        match s.html with
        | some m => some (ClipboardMonitor.capture_html item m)
        | none => some item

/-- Monitor state: the cooperative `running` flag. -/
structure ClipboardMonitor where
  running : Bool
deriving DecidableEq

/-- State owned by `ClipboardCore`: the shared settings, the database, the
optional monitor, the persisted configuration file contents, and the
events sent on the event channel so far. -/
structure ClipboardCore where
  settings : AppSettings
  db : Database
  monitor : Option ClipboardMonitor
  persistedConfig : Option AppSettings
  events : List ClipboardEvent
deriving DecidableEq

/-- The externally observable steps `ClipboardCore::stop` performs, in
order. -/
inductive CoreAction where
  | monitorStopSignal
  | retentionCleanup (keep_days : Nat)
deriving DecidableEq

def CoreAction.isCleanup : CoreAction → Bool
  | CoreAction.monitorStopSignal => false
  | CoreAction.retentionCleanup _ => true

/-- `ClipboardCore::stop` (`lib.rs` lines 182-194): signal the monitor to
stop when one exists, then run `cleanup_old_items` with the configured
`keep_days` (`lib.rs` lines 240-246) as the final action before returning.
Returns the new state, the number of rows the cleanup deleted, and the
ordered action trace. -/
def ClipboardCore.stop (now : Int) (c : ClipboardCore) :
    ClipboardCore × Nat × List CoreAction :=
  let sigs := match c.monitor with
    | some _ => [CoreAction.monitorStopSignal]
    | none => []
  let monitor2 := c.monitor.map (fun m => { m with running := false })
  let cleaned := Database.cleanup_old_items now c.settings.keep_days c.db
  ({ c with monitor := monitor2, db := cleaned.1 },
   cleaned.2,
   sigs ++ [CoreAction.retentionCleanup c.settings.keep_days])

/-- `ClipboardCore::update_settings` (`lib.rs` lines 260-267): overwrite
the shared settings, persist the configuration file, and publish a
`SettingsChanged` event. -/
def ClipboardCore.update_settings (c : ClipboardCore) (s : AppSettings) :
    ClipboardCore :=
  { c with
    settings := s
    persistedConfig := some s
    events := c.events ++ [ClipboardEvent.settingsChanged s] }

/-- `ClipboardCore::default_settings` (`lib.rs` lines 307-342), with the
platform configuration directory passed in. -/
def ClipboardCore.default_settings (config_dir : String) : AppSettings :=
  { max_items := 1000
    keep_days := 90
    max_image_size_mb := 10
    compress_images := true
    save_text := true
    save_images := true
    save_files := true
    save_html := true
    auto_cleanup := true
    startup_delay_ms := 1000
    database_path := config_dir ++ "\\data\\clipboard.db"
    cache_path := config_dir ++ "\\cache"
    hotkeys :=
      { show_window := "Ctrl+Shift+V"
        pin_item := "Ctrl+Shift+P"
        search := "Ctrl+Shift+F"
        next_item := "Ctrl+Down"
        prev_item := "Ctrl+Up" }
    ui :=
      { theme := "System"
        opacity_percent := 95
        animation_speed := 200
        show_preview := true
        show_thumbnails := true
        thumbnail_size := 64
        font_size := 14 } }

/-- Continuation-byte test for UTF-8 decoding: `0x80 ≤ b < 0xC0`. -/
def utf8Cont (b : Nat) : Bool :=
  decide (128 ≤ b ∧ b < 192)

/-- UTF-8 validating decoder over raw bytes, modelling Rust's
`CStr::to_str` / `str::from_utf8` used by the FFI boundary: rejects
continuation-byte leads, overlong encodings, surrogates and codepoints
above U+10FFFF. The fuel argument (instantiated with the list length)
makes the recursion structural. -/
def utf8DecodeAux : Nat → List Nat → Option (List Char)
  | _, [] => some []
  | 0, _ :: _ => none
  | fuel + 1, b :: bs =>
    if b < 128 then
      (utf8DecodeAux fuel bs).map (fun cs => Char.ofNat b :: cs)
    else if b < 194 then none
    else if b < 224 then
      match bs with
      | b1 :: rest =>
        if utf8Cont b1 then
          (utf8DecodeAux fuel rest).map (fun cs =>
            Char.ofNat ((b - 192) * 64 + (b1 - 128)) :: cs)
        else none
      | [] => none
    else if b < 240 then
      match bs with
      | b1 :: b2 :: rest =>
        if (if b = 224 then decide (160 ≤ b1 ∧ b1 < 192)
            else if b = 237 then decide (128 ≤ b1 ∧ b1 < 160)
            else utf8Cont b1) && utf8Cont b2 then
          (utf8DecodeAux fuel rest).map (fun cs =>
            Char.ofNat (((b - 224) * 64 + (b1 - 128)) * 64 + (b2 - 128)) :: cs)
        else none
      | _ => none
    else if b < 245 then
      match bs with
      | b1 :: b2 :: b3 :: rest =>
        if (if b = 240 then decide (144 ≤ b1 ∧ b1 < 192)
            else if b = 244 then decide (128 ≤ b1 ∧ b1 < 144)
            else utf8Cont b1) && utf8Cont b2 && utf8Cont b3 then
          (utf8DecodeAux fuel rest).map (fun cs =>
            Char.ofNat ((((b - 240) * 64 + (b1 - 128)) * 64 + (b2 - 128)) * 64 +
              (b3 - 128)) :: cs)
        else none
      | _ => none
    else none

/-- Decode a NUL-free byte sequence as UTF-8, or fail. -/
def decodeUtf8 (bs : List Nat) : Option String :=
  (utf8DecodeAux bs.length bs).map String.mk

/-- `clipboard_core_update_settings` (`ffi.rs` lines 96-133): reject a null
pointer, then (when a core exists) reject non-UTF-8 bytes and documents the
settings deserializer rejects, and only then apply `update_settings`.
The input models the C string as `none` for a null pointer or the bytes
before the terminating NUL; `deserialize` stands for the external
`serde_json::from_str::<AppSettings>` and is passed in explicitly. -/
def clipboard_core_update_settings (deserialize : String → Option AppSettings)
    (core : Option ClipboardCore) (input : Option (List Nat)) :
    Bool × Option ClipboardCore :=
  match input with
  | none => (false, core)
  | some bs =>
    match core with
    | none => (false, core)
    | some c =>
      match decodeUtf8 bs with
      | none => (false, core)
      | some s =>
        match deserialize s with
        | none => (false, core)
        | some st => (true, some (c.update_settings st))

/-- A stored `clipboard_items` row holding a text payload, used as concrete
test data. -/
def mkRow (i : Nat) (pv : String) (ts : Int) (fav pin : Bool) : StoredItem :=
  { id := i
    content_type := "text"
    content := ClipboardContent.text pv
    timestamp := ts
    tags := []
    favorite := fav
    pinned := pin
    source_app := none
    source_window := none
    preview_text := pv
    preview_image := none
    metadata := [] }

/-- A `ClipboardItem` holding a text payload, used as concrete test data. -/
def mkItem (i : Nat) (pv : String) (ts : Int) : ClipboardItem :=
  { id := i
    content := ClipboardContent.text pv
    timestamp := ts
    tags := []
    favorite := false
    pinned := false
    source_app := none
    source_window := none
    preview_text := ""
    preview_image := none
    metadata := [] }

/-- A blank captured item used to instantiate capture theorems. -/
def sampleItem : ClipboardItem := mkItem 1 "" 0

/-- Store holding one entry with preview `"a"` captured at second 95. -/
def dbC1 : Database :=
  { items := [mkRow 1 "a" 95 false false], tagRows := [], metaRows := [] }

/-- An entry with preview `"a"` captured at second 100. -/
def eC1 : ClipboardItem :=
  { mkItem 2 "a" 100 with preview_text := "a" }

/-- Store holding one entry with preview `"a"` captured at second 98. -/
def dbDupW : Database :=
  { items := [mkRow 1 "a" 98 false false], tagRows := [], metaRows := [] }

/-- Store holding a favorite entry and a plain entry, both very old. -/
def dbC2 : Database :=
  { items := [mkRow 1 "f" 0 true false, mkRow 2 "p" 0 false false],
    tagRows := [], metaRows := [] }

/-- A snapshot offering no supported clipboard format. -/
def emptySnapshot : Snapshot :=
  { text := none, image := none, files := none, html := none,
    foreground_app := none, foreground_window := none }

/-- A tiny 2 by 1 bitmap whose memory is all zeroes. -/
def bmpW : Bitmap := { width := 2, height := 1, bits := fun _ => 0 }

/-- A snapshot simultaneously offering text and an image. -/
def snapTI : Snapshot :=
  { text := some "hi", image := some bmpW, files := none, html := none,
    foreground_app := none, foreground_window := none }

/-- A snapshot offering only an image. -/
def snapImg : Snapshot :=
  { text := none, image := some bmpW, files := none, html := none,
    foreground_app := none, foreground_window := none }

/-- A live core with default settings and an empty store. -/
def coreW : ClipboardCore :=
  { settings := ClipboardCore.default_settings "C"
    db := { items := [], tagRows := [], metaRows := [] }
    monitor := none
    persistedConfig := none
    events := [] }

/-- Default settings with image compression switched off. -/
def noCompressSettings : AppSettings :=
  { ClipboardCore.default_settings "C" with compress_images := false }

/-- Store holding one entry with id 1 plus stale tag and metadata rows. -/
def db10 : Database :=
  { items := [mkRow 1 "a" 0 false false]
    tagRows := [(1, "old")]
    metaRows := [(1, "k0", "v0")] }

/-- An entry reusing id 1 with fresh preview, tags and metadata. -/
def e10 : ClipboardItem :=
  { id := 1
    content := ClipboardContent.text "b"
    timestamp := 100
    tags := ["t1"]
    favorite := false
    pinned := false
    source_app := none
    source_window := none
    preview_text := "b"
    preview_image := none
    metadata := [("k", "v")] }

theorem save_item_of_dup (now : Int) (db : Database) (it : ClipboardItem)
    (h : ∃ r ∈ db.items, r.preview_text = it.preview_text ∧ now - 5 < r.timestamp) :
    Database.save_item now db it = db := by
  unfold Database.save_item
  rw [if_pos]
  rcases h with ⟨r, hr, h1, h2⟩
  exact List.any_eq_true.mpr ⟨r, hr, by simp [isNearDuplicate, h1, h2]⟩

theorem save_item_of_not_dup (now : Int) (db : Database) (it : ClipboardItem)
    (h : ∀ r ∈ db.items, r.preview_text = it.preview_text → r.timestamp ≤ now - 5) :
    Database.save_item now db it =
      { items := db.items.filter (fun r => decide (r.id ≠ it.id)) ++ [rowOf it]
        tagRows := db.tagRows.filter (fun p => decide (p.1 ≠ it.id)) ++
          it.tags.map (fun t => (it.id, t))
        metaRows := db.metaRows.filter (fun m => decide (m.1 ≠ it.id)) ++
          it.metadata.map (fun kv => (it.id, kv.1, kv.2)) } := by
  unfold Database.save_item
  rw [if_neg]
  intro hc
  rcases List.any_eq_true.mp hc with ⟨r, hr, hd⟩
  simp only [isNearDuplicate, decide_eq_true_eq] at hd
  exact absurd hd.2 (not_lt.mpr (h r hr hd.1))

/-- C1 (counterexample): the store holds an entry with preview `"a"`
captured at second 95 and now is second 100 — a timestamp within 5 seconds
of now — yet `save_item` of a second entry with preview `"a"` does insert,
changing the stored entry set, because the code's window test is the
strict `timestamp > now - 5`. -/
theorem C1_counterexample :
    ((100 : Int) - (95 : Int) ≤ 5 ∧ (95 : Int) ≤ 100 + 5) ∧
    Database.save_item 100 dbC1 eC1 ≠ dbC1 ∧
    (Database.save_item 100 dbC1 eC1).items.length = dbC1.items.length + 1 := by
  decide

/-- C1 (amended): if the store contains an entry whose `preview_text`
equals `e.preview_text` and whose capture timestamp is strictly newer than
now minus 5 seconds, `save_item` returns success without changing the
store; if every entry with that `preview_text` has timestamp at most now
minus 5 seconds and `e.id` is fresh, `save_item` inserts, leaving exactly
one more entry with that `preview_text` than before. -/
theorem C1_amended (now : Int) (db : Database) (e : ClipboardItem) :
    ((∃ r ∈ db.items, r.preview_text = e.preview_text ∧ now - 5 < r.timestamp) →
      Database.save_item now db e = db) ∧
    ((∀ r ∈ db.items, r.preview_text = e.preview_text → r.timestamp ≤ now - 5) →
      (∀ r ∈ db.items, r.id ≠ e.id) →
      (Database.save_item now db e).items.countP
          (fun r => decide (r.preview_text = e.preview_text)) =
        db.items.countP (fun r => decide (r.preview_text = e.preview_text)) + 1) := by
  constructor
  · exact fun h => save_item_of_dup now db e h
  · intro h hid
    rw [save_item_of_not_dup now db e h]
    have hf : db.items.filter (fun r => decide (r.id ≠ e.id)) = db.items :=
      List.filter_eq_self.mpr (fun r hr => by simpa using hid r hr)
    show ((db.items.filter (fun r => decide (r.id ≠ e.id))) ++ [rowOf e]).countP
        (fun r => decide (r.preview_text = e.preview_text)) = _
    rw [List.countP_append, hf]
    simp [rowOf, List.countP_cons]

/-- C1 (witness): both branches of the amended statement at concrete
stores: second 98 is inside the open window, second 95 is outside it. -/
theorem C1_amended_witness :
    Database.save_item 100 dbDupW eC1 = dbDupW ∧
    (Database.save_item 100 dbC1 eC1).items.countP
        (fun r => decide (r.preview_text = eC1.preview_text)) =
      dbC1.items.countP (fun r => decide (r.preview_text = eC1.preview_text)) + 1 :=
  ⟨(C1_amended 100 dbDupW eC1).1 (by decide),
   (C1_amended 100 dbC1 eC1).2 (by decide) (by decide)⟩

theorem cleanupDeletes_not_iff (cutoff : Int) (r : StoredItem) :
    (!cleanupDeletes cutoff r) = true ↔
      (r.favorite = true ∨ r.pinned = true ∨ ¬ r.timestamp < cutoff) := by
  cases hf : r.favorite <;> cases hp : r.pinned <;>
    simp [cleanupDeletes, hf, hp]

/-- C2: `cleanup_old_items d` keeps exactly the entries that are favorite,
pinned, or not older than now minus `d` days; it returns the number of
entries deleted; the surviving tag and metadata rows are exactly those
whose entry still exists; and favorite or pinned entries always survive. -/
theorem C2_cleanup (now : Int) (d : Nat) (db : Database) :
    (∀ r : StoredItem, r ∈ (Database.cleanup_old_items now d db).1.items ↔
      (r ∈ db.items ∧
        (r.favorite = true ∨ r.pinned = true ∨
          ¬ r.timestamp < now - 86400 * (d : Int)))) ∧
    (Database.cleanup_old_items now d db).2 =
      (db.items.filter (fun r =>
        !r.favorite && !r.pinned &&
          decide (r.timestamp < now - 86400 * (d : Int)))).length ∧
    (∀ p : Nat × String, p ∈ (Database.cleanup_old_items now d db).1.tagRows ↔
      (p ∈ db.tagRows ∧
        ∃ r ∈ (Database.cleanup_old_items now d db).1.items, r.id = p.1)) ∧
    (∀ m : Nat × String × String,
      m ∈ (Database.cleanup_old_items now d db).1.metaRows ↔
      (m ∈ db.metaRows ∧
        ∃ r ∈ (Database.cleanup_old_items now d db).1.items, r.id = m.1)) ∧
    (∀ r ∈ db.items, r.favorite = true ∨ r.pinned = true →
      r ∈ (Database.cleanup_old_items now d db).1.items) := by
  refine ⟨?_, ?_, ?_, ?_, ?_⟩
  · intro r
    rw [Database.cleanup_old_items]
    simp only [List.mem_filter, cleanupDeletes_not_iff]
  · rw [Database.cleanup_old_items]
    rw [List.countP_eq_length_filter]
    rfl
  · intro p
    rw [Database.cleanup_old_items]
    simp only [List.mem_filter, decide_eq_true_eq, List.mem_map,
      List.mem_filter, cleanupDeletes_not_iff]
  · intro m
    rw [Database.cleanup_old_items]
    simp only [List.mem_filter, decide_eq_true_eq, List.mem_map,
      List.mem_filter, cleanupDeletes_not_iff]
  · intro r hr hprot
    rw [Database.cleanup_old_items]
    simp only [List.mem_filter, cleanupDeletes_not_iff]
    exact ⟨hr, hprot.elim Or.inl (fun h => Or.inr (Or.inl h))⟩

/-- C2 (witness): with retention 0 days at second 1000000, the ancient
favorite entry of `dbC2` survives the cleanup. -/
theorem C2_cleanup_witness :
    mkRow 1 "f" 0 true false ∈ (Database.cleanup_old_items 1000000 0 dbC2).1.items :=
  ((C2_cleanup 1000000 0 dbC2).1 (mkRow 1 "f" 0 true false)).mpr
    ⟨by decide, Or.inl rfl⟩

/-- C3 (counterexample): on a snapshot offering none of the supported
formats, `capture_clipboard_content` does not decline — it returns the
blank initial entry, whose `preview_text` is empty, contradicting both the
decline behaviour and the non-empty-preview invariant of the claim. -/
theorem C3_counterexample :
    ClipboardMonitor.capture_clipboard_content (ClipboardCore.default_settings "C")
        1 0 emptySnapshot =
      some (ClipboardMonitor.initial_item 1 0 emptySnapshot) ∧
    (ClipboardMonitor.initial_item 1 0 emptySnapshot).preview_text = "" :=
  ⟨rfl, rfl⟩

/-- C3 (amended): when none of the supported formats is present on the
clipboard, the capture operation does not decline — it produces exactly
one entry, the blank initial entry, whose content is the empty text and
whose `preview_text` is empty (so `preview_text` is not always
non-empty). -/
theorem C3_amended (settings : AppSettings) (fresh_id : Nat) (now : Int)
    (s : Snapshot) (ht : s.text = none) (hi : s.image = none)
    (hf : s.files = none) (hh : s.html = none) :
    ClipboardMonitor.capture_clipboard_content settings fresh_id now s =
      some (ClipboardMonitor.initial_item fresh_id now s) ∧
    (ClipboardMonitor.initial_item fresh_id now s).preview_text = "" ∧
    (ClipboardMonitor.initial_item fresh_id now s).content =
      ClipboardContent.text "" := by
  unfold ClipboardMonitor.capture_clipboard_content
  rw [ht, hi, hf, hh]
  exact ⟨rfl, rfl, rfl⟩

/-- C3 (witness): the amended statement at the concrete empty snapshot. -/
theorem C3_amended_witness :
    ClipboardMonitor.capture_clipboard_content (ClipboardCore.default_settings "C")
        1 0 emptySnapshot =
      some (ClipboardMonitor.initial_item 1 0 emptySnapshot) ∧
    (ClipboardMonitor.initial_item 1 0 emptySnapshot).preview_text = "" ∧
    (ClipboardMonitor.initial_item 1 0 emptySnapshot).content =
      ClipboardContent.text "" :=
  C3_amended (ClipboardCore.default_settings "C") 1 0 emptySnapshot rfl rfl rfl rfl

/-- C4 (counterexample): a payload of 60 two-byte characters is 60
characters long — at most 100 characters — yet its preview is not the
payload itself, because the code truncates at 100 UTF-8 bytes, not 100
characters. -/
theorem C4_counterexample :
    (String.mk (List.replicate 60 'é')).data.length ≤ 100 ∧
    (ClipboardMonitor.capture_text sampleItem
        (String.mk (List.replicate 60 'é'))).map (fun it => it.preview_text) ≠
      some (String.mk (List.replicate 60 'é')) := by
  decide

/-- C4 (amended): for every captured text payload `t`, the entry's
`preview_text` equals `t` itself when `t` is at most 100 UTF-8 bytes long,
and otherwise equals the characters of the first 100 bytes of `t` followed
by the ellipsis marker `"..."` whenever byte offset 100 falls on a
character boundary (the capture fails there otherwise); in particular
capturing `"hello world"` yields `"hello world"` and a 250-character ASCII
payload yields a 100-character preview plus the marker. -/
theorem C4_amended (item : ClipboardItem) (t : String) :
    (utf8Len t.data ≤ 100 →
      (ClipboardMonitor.capture_text item t).map (fun it => it.preview_text) =
        some t) ∧
    (100 < utf8Len t.data →
      (ClipboardMonitor.capture_text item t).map (fun it => it.preview_text) =
        (takeBytes 100 t.data).map (fun p => String.mk (p ++ "...".data))) := by
  constructor
  · intro h
    unfold ClipboardMonitor.capture_text
    rw [if_neg (by omega)]
    rfl
  · intro h
    unfold ClipboardMonitor.capture_text
    rw [if_pos h]
    cases htb : takeBytes 100 t.data <;> simp [htb]

set_option maxRecDepth 4000 in
/-- C4 (witness): both branches of the amended statement: the short
payload `"hello world"` and a 250-character ASCII payload. -/
theorem C4_amended_witness :
    (ClipboardMonitor.capture_text sampleItem "hello world").map
        (fun it => it.preview_text) = some "hello world" ∧
    (ClipboardMonitor.capture_text sampleItem
        (String.mk (List.replicate 250 'a'))).map (fun it => it.preview_text) =
      (takeBytes 100 (String.mk (List.replicate 250 'a')).data).map
        (fun p => String.mk (p ++ "...".data)) :=
  ⟨(C4_amended sampleItem "hello world").1 (by decide),
   (C4_amended sampleItem (String.mk (List.replicate 250 'a'))).2 (by decide)⟩

/-- C5: `capture_clipboard_content` probes the formats in the fixed
priority order text, image, file list, markup, and captures only the
first format present: whenever text is offered the result is the text
capture regardless of the other formats, the image capture is taken only
when text is absent, the file capture only when text and image are absent,
and the markup capture only when the first three are absent. -/
theorem C5_priority (settings : AppSettings) (fresh_id : Nat) (now : Int)
    (s : Snapshot) :
    (∀ t, s.text = some t →
      ClipboardMonitor.capture_clipboard_content settings fresh_id now s =
        ClipboardMonitor.capture_text
          (ClipboardMonitor.initial_item fresh_id now s) t) ∧
    (s.text = none → ∀ b, s.image = some b →
      ClipboardMonitor.capture_clipboard_content settings fresh_id now s =
        some (ClipboardMonitor.capture_image
          (ClipboardMonitor.initial_item fresh_id now s) settings b)) ∧
    (s.text = none → s.image = none → ∀ fs, s.files = some fs →
      ClipboardMonitor.capture_clipboard_content settings fresh_id now s =
        some (ClipboardMonitor.capture_files
          (ClipboardMonitor.initial_item fresh_id now s) fs)) ∧
    (s.text = none → s.image = none → s.files = none → ∀ m, s.html = some m →
      ClipboardMonitor.capture_clipboard_content settings fresh_id now s =
        some (ClipboardMonitor.capture_html
          (ClipboardMonitor.initial_item fresh_id now s) m)) := by
  refine ⟨?_, ?_, ?_, ?_⟩ <;> intros <;>
    unfold ClipboardMonitor.capture_clipboard_content <;> simp_all

/-- C5 (witness): a snapshot offering both text and an image is captured
as text, and the same image is captured only once text is absent. -/
theorem C5_priority_witness :
    ClipboardMonitor.capture_clipboard_content (ClipboardCore.default_settings "C")
        1 0 snapTI =
      ClipboardMonitor.capture_text (ClipboardMonitor.initial_item 1 0 snapTI) "hi" ∧
    ClipboardMonitor.capture_clipboard_content (ClipboardCore.default_settings "C")
        1 0 snapImg =
      some (ClipboardMonitor.capture_image (ClipboardMonitor.initial_item 1 0 snapImg)
        (ClipboardCore.default_settings "C") bmpW) :=
  ⟨(C5_priority (ClipboardCore.default_settings "C") 1 0 snapTI).1 "hi" rfl,
   (C5_priority (ClipboardCore.default_settings "C") 1 0 snapImg).2.1 rfl bmpW rfl⟩

/-- C6: for every malformed settings document passed to
`clipboard_core_update_settings` — a null pointer, bytes that are not
valid UTF-8, or a document the settings deserializer rejects — the call
returns `false` and the core state is unchanged: the held settings, the
persisted configuration and the event list are exactly as before. -/
theorem C6_update_settings (deserialize : String → Option AppSettings)
    (core : Option ClipboardCore) (input : Option (List Nat))
    (h : input = none ∨ ∃ bs, input = some bs ∧
      (decodeUtf8 bs = none ∨ ∃ s, decodeUtf8 bs = some s ∧ deserialize s = none)) :
    clipboard_core_update_settings deserialize core input = (false, core) := by
  rcases h with rfl | ⟨bs, rfl, h⟩
  · rfl
  · cases core with
    | none => rfl
    | some c =>
      rcases h with hd | ⟨s, hs, hp⟩
      · simp [clipboard_core_update_settings, hd]
      · simp [clipboard_core_update_settings, hs, hp]

/-- C6 (witness): the byte `0xFF` is not valid UTF-8, so the update is
rejected and a live core is left unchanged. -/
theorem C6_update_settings_witness :
    clipboard_core_update_settings (fun _ => none) (some coreW) (some [255]) =
      (false, some coreW) :=
  C6_update_settings (fun _ => none) (some coreW) (some [255])
    (Or.inr ⟨[255], rfl, Or.inl (by decide)⟩)

/-- C7: for every captured raster image, `preview_text` is exactly
`"[Image WxH]"`; when `compress_images` is enabled `preview_image` holds
the PNG encoding of the 128 by 128 thumbnail rendered from the pixel
buffer; when it is disabled `preview_image` is absent. -/
theorem C7_capture_image (item : ClipboardItem) (settings : AppSettings)
    (b : Bitmap) :
    (ClipboardMonitor.capture_image item settings b).preview_text =
      "[Image " ++ toString b.width ++ "x" ++ toString b.height ++ "]" ∧
    (settings.compress_images = true →
      (ClipboardMonitor.capture_image item settings b).preview_image =
        some (pngEncode 128 128 (thumbnailPixels b.width b.height
          ((List.range (b.width * b.height * 4)).map b.bits)))) ∧
    (settings.compress_images = false →
      (ClipboardMonitor.capture_image item settings b).preview_image = none) := by
  unfold ClipboardMonitor.capture_image
  refine ⟨rfl, ?_, ?_⟩ <;> intro h <;> simp [h]

/-- C7 (witness): the concrete 2 by 1 bitmap under default settings
(compression on) and under settings with compression off. -/
theorem C7_capture_image_witness :
    (ClipboardMonitor.capture_image sampleItem (ClipboardCore.default_settings "C")
        bmpW).preview_image =
      some (pngEncode 128 128 (thumbnailPixels bmpW.width bmpW.height
        ((List.range (bmpW.width * bmpW.height * 4)).map bmpW.bits))) ∧
    (ClipboardMonitor.capture_image sampleItem noCompressSettings bmpW).preview_image =
      none :=
  ⟨(C7_capture_image sampleItem (ClipboardCore.default_settings "C") bmpW).2.1 rfl,
   (C7_capture_image sampleItem noCompressSettings bmpW).2.2 rfl⟩

theorem stats_partition (l : List StoredItem) :
    l.length =
      l.countP (fun r => decide (r.content_type = "text")) +
        l.countP (fun r => decide (r.content_type = "image")) +
        l.countP (fun r => decide (r.content_type = "file")) +
        l.countP (fun r => decide (r.content_type = "html")) +
        l.countP (fun r =>
          !(decide (r.content_type = "text") || decide (r.content_type = "image") ||
            decide (r.content_type = "file") || decide (r.content_type = "html"))) := by
  induction l with
  | nil => rfl
  | cons a l ih =>
    simp only [List.length_cons, List.countP_cons]
    by_cases h1 : a.content_type = "text" <;>
      by_cases h2 : a.content_type = "image" <;>
      by_cases h3 : a.content_type = "file" <;>
      by_cases h4 : a.content_type = "html" <;>
      simp_all <;> omega

/-- C8: the `Statistics` value returned by `get_statistics` satisfies
`total_items` equals `text_items + image_items + file_items + html_items`
plus the number of items whose content type is none of those four, and
`favorite_items` and `pinned_items` never exceed `total_items`. -/
theorem C8_statistics (db_size : Nat) (db : Database) :
    (Database.get_statistics db_size db).total_items =
      (Database.get_statistics db_size db).text_items +
        (Database.get_statistics db_size db).image_items +
        (Database.get_statistics db_size db).file_items +
        (Database.get_statistics db_size db).html_items +
        db.items.countP (fun r =>
          !(decide (r.content_type = "text") || decide (r.content_type = "image") ||
            decide (r.content_type = "file") || decide (r.content_type = "html"))) ∧
    (Database.get_statistics db_size db).favorite_items ≤
      (Database.get_statistics db_size db).total_items ∧
    (Database.get_statistics db_size db).pinned_items ≤
      (Database.get_statistics db_size db).total_items := by
  refine ⟨?_, ?_, ?_⟩
  · simpa [Database.get_statistics] using stats_partition db.items
  · simpa [Database.get_statistics] using
      List.countP_le_length (fun r : StoredItem => r.favorite) (l := db.items)
  · simpa [Database.get_statistics] using
      List.countP_le_length (fun r : StoredItem => r.pinned) (l := db.items)

/-- C9: `stop()` first signals the monitor to stop (when one exists) and
then performs exactly one retention cleanup pass with the configured
`keep_days` as the final action before returning: the action trace is the
optional stop signal followed by a single cleanup that is its last
element, the resulting store is the cleaned store, and the returned count
is the cleanup's deletion count. -/
theorem C9_stop (now : Int) (c : ClipboardCore) :
    ((ClipboardCore.stop now c).2.2 =
      (if c.monitor.isSome then [CoreAction.monitorStopSignal] else []) ++
        [CoreAction.retentionCleanup c.settings.keep_days]) ∧
    (ClipboardCore.stop now c).2.2.countP CoreAction.isCleanup = 1 ∧
    (ClipboardCore.stop now c).2.2.getLast? =
      some (CoreAction.retentionCleanup c.settings.keep_days) ∧
    (ClipboardCore.stop now c).1.db =
      (Database.cleanup_old_items now c.settings.keep_days c.db).1 ∧
    (ClipboardCore.stop now c).2.1 =
      (Database.cleanup_old_items now c.settings.keep_days c.db).2 := by
  cases hm : c.monitor <;>
    simp [ClipboardCore.stop, hm, CoreAction.isCleanup, List.getLast?]

theorem filter_ne_length (l : List StoredItem) (i : Nat)
    (hnd : (l.map (fun r => r.id)).Nodup) (hex : ∃ r ∈ l, r.id = i) :
    (l.filter (fun r => decide (r.id ≠ i))).length + 1 = l.length := by
  induction l with
  | nil => simp at hex
  | cons a l ih =>
    simp only [List.map_cons, List.nodup_cons, List.mem_map] at hnd
    by_cases ha : a.id = i
    · have hni : ∀ r ∈ l, ¬ r.id = i :=
        fun r hr hri => hnd.1 ⟨r, hr, by rw [hri, ha]⟩
      have hl : l.filter (fun r => decide (r.id ≠ i)) = l :=
        List.filter_eq_self.mpr (fun r hr => by simpa using hni r hr)
      simp [List.filter_cons, ha, hl]
      exact hni
    · rcases hex with ⟨r, hr, hri⟩
      rcases List.mem_cons.mp hr with rfl | hr2
      · exact absurd hri ha
      · have hih := ih hnd.2 ⟨r, hr2, hri⟩
        simp only [List.filter_cons, decide_eq_true_eq]
        rw [if_pos (by simpa using ha)]
        simpa using hih

theorem filter_key_none {α : Type} (f : α → Nat) (l : List α) (i : Nat) :
    (l.filter (fun x => decide (f x ≠ i))).filter (fun x => decide (f x = i)) = [] := by
  induction l with
  | nil => rfl
  | cons a l ih =>
    by_cases h : f a = i <;> simp [List.filter_cons, h, ih]

theorem filter_map_tags (i : Nat) (ts : List String) :
    ((ts.map (fun t => (i, t))).filter (fun p => decide (p.1 = i))).map
      (fun p => p.2) = ts := by
  induction ts with
  | nil => rfl
  | cons t ts ih => simp [List.filter_cons, ih]

theorem filter_map_meta (i : Nat) (kvs : List (String × String)) :
    (kvs.map (fun kv => (i, kv.1, kv.2))).filter (fun m => decide (m.1 = i)) =
      kvs.map (fun kv => (i, kv.1, kv.2)) := by
  apply List.filter_eq_self.mpr
  intro m hm
  rcases List.mem_map.mp hm with ⟨kv, _, rfl⟩
  simp

/-- C10: for an entry `e` whose id already exists in a store with unique
ids and which the near-duplicate rule does not absorb, `save_item` behaves
as an upsert: the row count is unchanged, the unique row with `e`'s id
holds exactly `e`'s fields, that id's tag rows are exactly `e`'s tags and
its metadata rows exactly `e`'s metadata, and rows with any other id are
untouched. -/
theorem C10_upsert (now : Int) (db : Database) (e : ClipboardItem)
    (hdup : ∀ r ∈ db.items, r.preview_text = e.preview_text → r.timestamp ≤ now - 5)
    (hnd : (db.items.map (fun r => r.id)).Nodup)
    (hex : ∃ r ∈ db.items, r.id = e.id) :
    (Database.save_item now db e).items.length = db.items.length ∧
    (Database.save_item now db e).items.filter (fun r => decide (r.id = e.id)) =
      [rowOf e] ∧
    ((Database.save_item now db e).tagRows.filter
        (fun p => decide (p.1 = e.id))).map (fun p => p.2) = e.tags ∧
    (Database.save_item now db e).metaRows.filter (fun m => decide (m.1 = e.id)) =
      e.metadata.map (fun kv => (e.id, kv.1, kv.2)) ∧
    (∀ r : StoredItem, r.id ≠ e.id →
      (r ∈ (Database.save_item now db e).items ↔ r ∈ db.items)) := by
  rw [save_item_of_not_dup now db e hdup]
  refine ⟨?_, ?_, ?_, ?_, ?_⟩
  · show ((db.items.filter (fun r => decide (r.id ≠ e.id))) ++ [rowOf e]).length = _
    rw [List.length_append]
    simpa using filter_ne_length db.items e.id hnd hex
  · show ((db.items.filter (fun r => decide (r.id ≠ e.id))) ++ [rowOf e]).filter
        (fun r => decide (r.id = e.id)) = _
    rw [List.filter_append, filter_key_none (fun r : StoredItem => r.id) db.items e.id]
    simp [rowOf]
  · show ((db.tagRows.filter (fun p => decide (p.1 ≠ e.id)) ++
        e.tags.map (fun t => (e.id, t))).filter (fun p => decide (p.1 = e.id))).map
        (fun p => p.2) = _
    rw [List.filter_append, filter_key_none (fun p : Nat × String => p.1) db.tagRows e.id]
    rw [List.nil_append]
    exact filter_map_tags e.id e.tags
  · show (db.metaRows.filter (fun m => decide (m.1 ≠ e.id)) ++
        e.metadata.map (fun kv => (e.id, kv.1, kv.2))).filter
        (fun m => decide (m.1 = e.id)) = _
    rw [List.filter_append,
      filter_key_none (fun m : Nat × String × String => m.1) db.metaRows e.id]
    rw [List.nil_append]
    exact filter_map_meta e.id e.metadata
  · intro r hr
    show r ∈ (db.items.filter (fun x => decide (x.id ≠ e.id))) ++ [rowOf e] ↔ _
    rw [List.mem_append, List.mem_filter]
    constructor
    · rintro (⟨h1, _⟩ | h2)
      · exact h1
      · rcases List.mem_singleton.mp h2 with rfl
        exact absurd rfl hr
    · intro h1
      exact Or.inl ⟨h1, by simpa using hr⟩

/-- C10 (witness): saving an entry that reuses id 1 of a one-row store
replaces the row and rewrites its tag rows. -/
theorem C10_upsert_witness :
    (Database.save_item 100 db10 e10).items.length = db10.items.length ∧
    (Database.save_item 100 db10 e10).items.filter (fun r => decide (r.id = e10.id)) =
      [rowOf e10] ∧
    ((Database.save_item 100 db10 e10).tagRows.filter
        (fun p => decide (p.1 = e10.id))).map (fun p => p.2) = e10.tags := by
  have h := C10_upsert 100 db10 e10 (by decide) (by decide) (by decide)
  exact ⟨h.1, h.2.1, h.2.2.1⟩
